import Mathlib

/-!
Verification of the TIMBER AVI/TDA engine and aggregator (src/avi_app.py).

The engine (`calculate_avi_and_volumes`, lines 131-199 of the source), the
totals button handler (lines 557-567) and the report-filling percentages and
totals (`fill_template`, lines 642-814) are embedded as pure Lean functions.

Numeric model: Python floats are modelled as exact rationals (ℚ).  Python's
built-in `round` rounds half to even ("banker's rounding"); `rnd_half_even`
below reproduces that on ℚ, and `round_to q n` models `round(q, n)`.
Cover percentages, crown density and heights are integers in the source
(sliders), modelled as ℕ.  The pandas table is modelled as a list of labelled
rows with named rational columns; `load_tda` (an Excel read) is modelled as a
table provider `Region → Except String Table`, whose failure corresponds to
the `except` branch of the source's `try`.
-/

namespace Timber

/-- Python `round(q)` on exact rationals: round half to even. -/
def rnd_half_even (q : ℚ) : ℤ :=
  if q - ⌊q⌋ < 1/2 then ⌊q⌋
  else if (1:ℚ)/2 < q - ⌊q⌋ then ⌊q⌋ + 1
  else if ⌊q⌋ % 2 = 0 then ⌊q⌋ else ⌊q⌋ + 1

/-- Python `round(q, n)` on exact rationals (round half to even at `n` decimals). -/
def round_to (q : ℚ) (n : ℕ) : ℚ :=
  (rnd_half_even (q * 10 ^ n) : ℚ) / 10 ^ n

/-- Species classified as conifers (source line 42). -/
def conifers : List String := ["Sw", "Sb", "P", "Fb", "Fd", "Lt"]

/-- Species classified as deciduous (source line 43). -/
def deciduous : List String := ["Aw", "Pb", "Bw"]

/-- AVI code assembly, source lines 134-143.  `is_merch` is the boolean the
source derives from the UI string via `is_merch.lower() == 'yes'`; an absent
secondary species is the empty string, exactly as in the source (falsy `""`). -/
def avi_code_of (is_merch : Bool) (crown_density avg_stand_height : ℕ)
    (dom_species : String) (dom_cover : ℕ)
    (sec_species : String) (sec_cover : ℕ) : String :=
  (if is_merch then "m" else "")
  ++ (if 6 ≤ crown_density ∧ crown_density ≤ 30 then "A"
      else if 31 ≤ crown_density ∧ crown_density ≤ 50 then "B"
      else if 51 ≤ crown_density ∧ crown_density ≤ 70 then "C"
      else if 71 ≤ crown_density ∧ crown_density ≤ 100 then "D"
      else "")
  ++ toString avg_stand_height
  ++ dom_species ++ toString (dom_cover / 10)
  ++ (if dom_cover < 100 ∧ sec_species ≠ "" then sec_species ++ toString (sec_cover / 10) else "")

/-- Function `density_class`, source lines 146-147. -/
def density_class (d : ℕ) : String :=
  if 6 ≤ d ∧ d ≤ 50 then "AB" else "CD"

/-- Function `height_bin`, source lines 149-155. -/
def height_bin (h : ℕ) : String :=
  if h ≤ 4 then "0-4"
  else if h ≤ 8 then "5-8"
  else if h ≤ 10 then "9-10"
  else if h ≤ 25 then toString h
  else if h ≤ 28 then "26-28"
  else "29+"

/-- Function `get_structure_group`, source lines 157-169.  An absent secondary species
is the empty string (member of neither species set). -/
def get_structure_group (dom_sp : String) (dom_pct : ℕ) (sec_sp : String) (sec_pct : ℕ) :
    Option String :=
  let t_dec := (if dom_sp ∈ deciduous then dom_pct else 0) + (if sec_sp ∈ deciduous then sec_pct else 0)
  let t_con := (if dom_sp ∈ conifers then dom_pct else 0) + (if sec_sp ∈ conifers then sec_pct else 0)
  if 70 ≤ t_dec then some "D"
  else if 70 ≤ t_con then
    if dom_sp = "Sw" then some "C-Sw"
    else if dom_sp = "P" then some "C-P"
    else if dom_sp = "Sb" then some "C-Sb"
    else some "C-Sx"
  else if 30 < t_con ∧ t_dec < 70 then
    if dom_sp = "P" then some "MX-P" else some "MX-Sx"
  else none

/-- One row of a TDA table: the `Height_and_Density` label and the named
numeric columns of that row. -/
structure TableRow where
  label : String
  values : List (String × ℚ)

/-- A TDA table (the DataFrame loaded by `load_tda`): its column names and rows. -/
structure Table where
  columns : List String
  rows : List TableRow

/-- Dropping leading whitespace characters from a character list. -/
def drop_leading_ws : List Char → List Char
  | [] => []
  | c :: cs => if c.isWhitespace then drop_leading_ws cs else c :: cs

/-- Pandas `.str.strip()`: the string with surrounding whitespace removed
(leading and trailing, the latter via the reversed list). -/
def py_strip (s : String) : String :=
  String.mk ((drop_leading_ws (drop_leading_ws s.data).reverse).reverse)

/-- Row selection `df[df["Height_and_Density"].str.strip() == key]`, source
line 174: the first row whose stripped label equals the key. -/
def find_row (t : Table) (key : String) : Option TableRow :=
  t.rows.find? (fun r => py_strip r.label == key)

/-- Reading a named column out of a row (`row[total_col].values[0]`). -/
def row_value (r : TableRow) (c : String) : ℚ :=
  ((r.values.find? (fun p => p.1 == c)).map Prod.snd).getD 0

/-- The valid structure-group labels, source line 176. -/
def valid_groups : List String := ["D", "MX-P", "MX-Sx", "C-Sw", "C-P", "C-Sb", "C-Sx"]

/-- Column selection, source line 177:
`f"Total ({group})" if group in valid_groups else "Total (D)"` (the group
`None` is not in the set, hence also falls back to `"Total (D)"`). -/
def total_col_of (g : Option String) : String :=
  match g with
  | some s => if s ∈ valid_groups then "Total (" ++ s ++ ")" else "Total (D)"
  | none => "Total (D)"

/-- The lookup key `f"{height_bin(h)} ({density_class(d)})"`, source line 173. -/
def lookup_key (h d : ℕ) : String :=
  height_bin h ++ " (" ++ density_class d ++ ")"

/-- Value `total_val`, source line 178:
`row[total_col].values[0] if not row.empty and total_col in df.columns else 0`. -/
def lookup_total (t : Table) (key col : String) : ℚ :=
  match find_row t key with
  | some r => if col ∈ t.columns then row_value r col else 0
  | none => 0

/-- The natural regions offered by the UI (source line 381). -/
inductive Region where
  | Boreal : Region
  | Foothills : Region
deriving DecidableEq

/-- The table provider abstracting `load_tda` (source lines 21-24): an Excel
read that either yields a table for a region or raises. -/
def TableProvider : Type := Region → Except String Table

/-- The engine's output: the module-level variables assigned by
`calculate_avi_and_volumes` (source line 132).  `c_vol_ha = none` models the
Python `None`; in the success path `d_vol_ha` is always a number, but the
`except` branch (line 196) sets it to `None` as well, hence `Option ℚ`. -/
structure StandResult where
  avi_code : String
  group : Option String
  total_val : ℚ
  c_vol_ha : Option ℚ
  d_vol_ha : Option ℚ
  c_vol : ℚ
  d_vol : ℚ
  c_load : ℚ
  d_load : ℚ
deriving DecidableEq

/-- The body of the `try` block, source lines 171-192 (after the AVI code has
been assembled): lookup, structure group, volume split, rounding. -/
def compute_ok (is_merch : Bool) (crown_density avg_stand_height : ℕ)
    (dom_species : String) (dom_cover : ℕ)
    (sec_species : String) (sec_cover : ℕ) (area : ℚ) (df : Table) : StandResult :=
  let key := lookup_key avg_stand_height crown_density
  let group := get_structure_group dom_species dom_cover sec_species sec_cover
  let total_col := total_col_of group
  let total_val := lookup_total df key total_col
  let c_vol_ha : Option ℚ :=
    if dom_cover = 100 then
      if dom_species ∈ conifers then some total_val else none
    else
      let c_pct := (if dom_species ∈ conifers then dom_cover else 0)
                 + (if sec_species ∈ conifers then sec_cover else 0)
      if 0 < c_pct then some (round_to ((c_pct : ℚ) / 100 * total_val) 1) else none
  let d_vol_ha : ℚ :=
    if dom_cover = 100 then
      if dom_species ∈ deciduous then total_val else 0
    else
      let d_pct := (if dom_species ∈ deciduous then dom_cover else 0)
                 + (if sec_species ∈ deciduous then sec_cover else 0)
      if 0 < d_pct then round_to ((d_pct : ℚ) / 100 * total_val) 1 else 0
  let c_vol : ℚ := match c_vol_ha with
    | some v => round_to (v * area) 5
    | none => 0
  let d_vol : ℚ := round_to (d_vol_ha * area) 5
  let c_load := round_to (c_vol / 30) 5
  let d_load := round_to (d_vol / 30) 5
  ⟨avi_code_of is_merch crown_density avg_stand_height dom_species dom_cover sec_species sec_cover,
   group, total_val, c_vol_ha, some d_vol_ha, c_vol, d_vol, c_load, d_load⟩

/-- The `except` branch, source lines 193-199: zero volumes and loads, `None`
per-hectare values, no AVI code, no group, zero total. -/
def zero_result : StandResult :=
  ⟨"", none, 0, none, none, 0, 0, 0, 0⟩

/-- Function `calculate_avi_and_volumes`, source lines 131-199: AVI assembly plus the
`try`/`except` around the table read and volume computation. -/
def calculate_avi_and_volumes (is_merch : Bool) (crown_density avg_stand_height : ℕ)
    (dom_species : String) (dom_cover : ℕ)
    (sec_species : String) (sec_cover : ℕ) (area : ℚ)
    (provider : TableProvider) (region : Region) : StandResult :=
  match provider region with
  | Except.ok df =>
      compute_ok is_merch crown_density avg_stand_height dom_species dom_cover
        sec_species sec_cover area df
  | Except.error _ => zero_result

/-- One saved entry of the results log (`entry_data`, source lines 238-252 /
257-270).  Only the fields read by the totals handler and by `fill_template`
are modelled; the remaining keys (raw inputs, area, region) are not consumed
by any aggregation. -/
structure Entry where
  C_Vol : ℚ
  C_Load : ℚ
  D_Vol : ℚ
  D_Load : ℚ
  dom_sp : String
  dom_pct : ℕ
  sec_sp : String
  sec_pct : ℕ
deriving DecidableEq

/-- Sum `sum(e["C_Vol"] for e in results_log if e["C_Vol"] is not None)`, source
line 558.  The engine stores only numbers in `C_Vol`, so the `is not None`
filter never drops an entry and the sum is a plain sum. -/
def total_c_vol_sum (log : List Entry) : ℚ := (log.map (fun e => e.C_Vol)).sum

/-- Source line 559. -/
def total_c_load_sum (log : List Entry) : ℚ := (log.map (fun e => e.C_Load)).sum

/-- Source line 560. -/
def total_d_vol_sum (log : List Entry) : ℚ := (log.map (fun e => e.D_Vol)).sum

/-- Source line 561. -/
def total_d_load_sum (log : List Entry) : ℚ := (log.map (fun e => e.D_Load)).sum

/-- Value `raw_con`, source lines 562-563 (identically recomputed at lines 644-645):
dominant covers of conifer-dominant entries plus secondary covers of entries
with a conifer secondary. -/
def raw_con (log : List Entry) : ℕ :=
  ((log.filter (fun e => e.dom_sp ∈ conifers)).map (fun e => e.dom_pct)).sum
  + ((log.filter (fun e => e.sec_sp ∈ conifers)).map (fun e => e.sec_pct)).sum

/-- Value `raw_dec`, source lines 564-565 (identically recomputed at lines 646-647). -/
def raw_dec (log : List Entry) : ℕ :=
  ((log.filter (fun e => e.dom_sp ∈ deciduous)).map (fun e => e.dom_pct)).sum
  + ((log.filter (fun e => e.sec_sp ∈ deciduous)).map (fun e => e.sec_pct)).sum

/-- The totals shown by the "Finish (Show Totals)" handler. -/
structure Totals where
  total_c_vol : ℚ
  total_c_load : ℚ
  total_d_vol : ℚ
  total_d_load : ℚ
  pct_con : ℚ
  pct_dec : ℚ
deriving DecidableEq

/-- The "Finish (Show Totals)" button handler, source lines 557-567:
`pct_con = round(raw_con/(raw_con+raw_dec)*100,0) if (raw_con+raw_dec)>0 else 0`
and symmetrically for `pct_dec`. -/
def finish_totals (log : List Entry) : Totals :=
  let rc := raw_con log
  let rd := raw_dec log
  { total_c_vol := total_c_vol_sum log
    total_c_load := total_c_load_sum log
    total_d_vol := total_d_vol_sum log
    total_d_load := total_d_load_sum log
    pct_con := if 0 < rc + rd then round_to ((rc : ℚ) / ((rc + rd : ℕ) : ℚ) * 100) 0 else 0
    pct_dec := if 0 < rc + rd then round_to ((rd : ℚ) / ((rc + rd : ℕ) : ℚ) * 100) 0 else 0 }

/-- Value `spruce_raw`, source lines 651-655: covers of White and Black spruce. -/
def spruce_raw (log : List Entry) : ℕ :=
  ((log.filter (fun e => e.dom_sp ∈ (["Sw", "Sb"] : List String))).map (fun e => e.dom_pct)).sum
  + ((log.filter (fun e => e.sec_sp ∈ (["Sw", "Sb"] : List String))).map (fun e => e.sec_pct)).sum

/-- Value `pine_raw`, source lines 656-660. -/
def pine_raw (log : List Entry) : ℕ :=
  ((log.filter (fun e => e.dom_sp = "P")).map (fun e => e.dom_pct)).sum
  + ((log.filter (fun e => e.sec_sp = "P")).map (fun e => e.sec_pct)).sum

/-- Value `aspen_raw`, source lines 670-674. -/
def aspen_raw (log : List Entry) : ℕ :=
  ((log.filter (fun e => e.dom_sp = "Aw")).map (fun e => e.dom_pct)).sum
  + ((log.filter (fun e => e.sec_sp = "Aw")).map (fun e => e.sec_pct)).sum

/-- Value `spruce_pct = int(round(spruce_raw/raw_con*100,0))` when `raw_con > 0`,
else `0` (source lines 662-667). -/
def spruce_pct (log : List Entry) : ℤ :=
  if 0 < raw_con log then rnd_half_even ((spruce_raw log : ℚ) / (raw_con log : ℚ) * 100) else 0

/-- Source lines 662-667. -/
def pine_pct (log : List Entry) : ℤ :=
  if 0 < raw_con log then rnd_half_even ((pine_raw log : ℚ) / (raw_con log : ℚ) * 100) else 0

/-- Value `other_con_pct = int(round(100 - spruce_pct - pine_pct, 0))` when
`raw_con > 0`, else `0` (source lines 662-667). -/
def other_con_pct (log : List Entry) : ℤ :=
  if 0 < raw_con log then
    rnd_half_even ((100 : ℚ) - (spruce_pct log : ℚ) - (pine_pct log : ℚ))
  else 0

/-- Value `aspen_pct = int(round(aspen_raw/raw_dec*100,0))` when `raw_dec > 0`,
else `0` (source lines 676-680). -/
def aspen_pct (log : List Entry) : ℤ :=
  if 0 < raw_dec log then rnd_half_even ((aspen_raw log : ℚ) / (raw_dec log : ℚ) * 100) else 0

/-- Value `other_dec_pct = int(round(100 - aspen_pct, 0))` when `raw_dec > 0`,
else `0` (source lines 676-680). -/
def other_dec_pct (log : List Entry) : ℤ :=
  if 0 < raw_dec log then rnd_half_even ((100 : ℚ) - (aspen_pct log : ℚ)) else 0

/-- Rounding `math.ceil(x * 10) / 10`, the re-rounding `fill_template` applies to each
total before rendering (source lines 810-814). -/
def ceil_1dp (q : ℚ) : ℚ := (⌈q * 10⌉ : ℚ) / 10

/-- The four volume/load totals as rendered into the generated report by
`fill_template`, source lines 805-814: the sums over the results log followed
by `math.ceil` to one decimal place. -/
def report_totals (log : List Entry) : ℚ × ℚ × ℚ × ℚ :=
  (ceil_1dp (total_c_vol_sum log), ceil_1dp (total_c_load_sum log),
   ceil_1dp (total_d_vol_sum log), ceil_1dp (total_d_load_sum log))

/-! ### Lemmas about half-to-even rounding -/

theorem rhe_of_lt {q : ℚ} (h : q - ⌊q⌋ < 1/2) : rnd_half_even q = ⌊q⌋ := by
  rw [rnd_half_even, if_pos h]

theorem rhe_of_gt {q : ℚ} (h : 1/2 < q - ⌊q⌋) : rnd_half_even q = ⌊q⌋ + 1 := by
  rw [rnd_half_even, if_neg (by linarith), if_pos h]

theorem rhe_of_mid_even {q : ℚ} (h : q - ⌊q⌋ = 1/2) (hp : ⌊q⌋ % 2 = 0) :
    rnd_half_even q = ⌊q⌋ := by
  rw [rnd_half_even, if_neg (by rw [h]; norm_num), if_neg (by rw [h]; norm_num), if_pos hp]

theorem rhe_of_mid_odd {q : ℚ} (h : q - ⌊q⌋ = 1/2) (hp : ¬⌊q⌋ % 2 = 0) :
    rnd_half_even q = ⌊q⌋ + 1 := by
  rw [rnd_half_even, if_neg (by rw [h]; norm_num), if_neg (by rw [h]; norm_num), if_neg hp]

theorem rnd_half_even_intCast (n : ℤ) : rnd_half_even (n : ℚ) = n := by
  have h : ((n : ℚ)) - ⌊(n : ℚ)⌋ = 0 := by simp
  rw [rhe_of_lt (by rw [h]; norm_num), Int.floor_intCast]

/-- Half-to-even rounding of `q` and of `100 - q` always sums to `100`
(for the tie `q = k + 1/2`, exactly one of `k` and `99 - k` is even). -/
theorem rnd_half_even_compl (q : ℚ) : rnd_half_even q + rnd_half_even (100 - q) = 100 := by
  have h0 : (⌊q⌋ : ℚ) ≤ q := Int.floor_le q
  have h1 : q < ⌊q⌋ + 1 := Int.lt_floor_add_one q
  rcases eq_or_lt_of_le h0 with hq | hq
  · have h100 : (100 : ℚ) - q = ((100 - ⌊q⌋ : ℤ) : ℚ) := by push_cast; linarith
    rw [h100, rnd_half_even_intCast, ← hq, rnd_half_even_intCast]
    simp only [Int.floor_intCast]
    omega
  · have hfl : ⌊(100 : ℚ) - q⌋ = 99 - ⌊q⌋ := by
      rw [Int.floor_eq_iff]
      constructor
      · push_cast; linarith
      · push_cast; linarith
    have hfr : ((100 : ℚ) - q) - (⌊(100 : ℚ) - q⌋ : ℚ) = 1 - (q - ⌊q⌋) := by
      rw [hfl]; push_cast; ring
    rcases lt_trichotomy (q - (⌊q⌋ : ℚ)) (1/2) with h2 | h2 | h2
    · rw [rhe_of_lt h2, rhe_of_gt (by rw [hfr]; linarith), hfl]
      omega
    · have hfr' : ((100 : ℚ) - q) - (⌊(100 : ℚ) - q⌋ : ℚ) = 1/2 := by rw [hfr, h2]; norm_num
      rcases Int.emod_two_eq_zero_or_one ⌊q⌋ with hp | hp
      · rw [rhe_of_mid_even h2 hp, rhe_of_mid_odd hfr' (by rw [hfl]; omega), hfl]
        omega
      · rw [rhe_of_mid_odd h2 (by omega), rhe_of_mid_even hfr' (by rw [hfl]; omega), hfl]
        omega
    · rw [rhe_of_gt h2, rhe_of_lt (by rw [hfr]; linarith), hfl]
      omega

theorem round_to_zero (q : ℚ) : round_to q 0 = (rnd_half_even q : ℚ) := by
  simp [round_to]

/-! ### Claim-side (spec-worded) definitions -/

/-- The density-class letter as worded by the spec: closed, contiguous,
inclusive bands [6,30]→A, [31,50]→B, [51,70]→C, [71,100]→D. -/
def density_letter_spec (d : ℕ) : String :=
  if 6 ≤ d ∧ d ≤ 30 then "A"
  else if 31 ≤ d ∧ d ≤ 50 then "B"
  else if 51 ≤ d ∧ d ≤ 70 then "C"
  else if 71 ≤ d ∧ d ≤ 100 then "D"
  else ""

/-- The coarse density bucket as worded by the spec: "AB" for d in [6,50],
else "CD". -/
def density_class_bucket_spec (d : ℕ) : String :=
  if 6 ≤ d ∧ d ≤ 50 then "AB" else "CD"

/-- The height bucket as worded by the spec, with closed two-sided bands:
h≤4→"0-4"; 5≤h≤8→"5-8"; 9≤h≤10→"9-10"; 11≤h≤25→decimal string of h;
26≤h≤28→"26-28"; h≥29→"29+". -/
def height_bucket_spec (h : ℕ) : String :=
  if h ≤ 4 then "0-4"
  else if 5 ≤ h ∧ h ≤ 8 then "5-8"
  else if 9 ≤ h ∧ h ≤ 10 then "9-10"
  else if 11 ≤ h ∧ h ≤ 25 then toString h
  else if 26 ≤ h ∧ h ≤ 28 then "26-28"
  else "29+"

/-- Total deciduous cover, as worded by claim C3: the sum of the covers whose
species is deciduous. -/
def t_dec_of (dom_sp : String) (dom_pct : ℕ) (sec_sp : String) (sec_pct : ℕ) : ℕ :=
  (if dom_sp ∈ deciduous then dom_pct else 0) + (if sec_sp ∈ deciduous then sec_pct else 0)

/-- Total conifer cover, as worded by claim C3. -/
def t_con_of (dom_sp : String) (dom_pct : ℕ) (sec_sp : String) (sec_pct : ℕ) : ℕ :=
  (if dom_sp ∈ conifers then dom_pct else 0) + (if sec_sp ∈ conifers then sec_pct else 0)

/-! ### Claim C1 -/

/-- C1: for every valid StandInput (density in [6,100], height in [0,40],
covers multiples of 10 in [0,100]), the engine's AVI code is the concatenation,
in order with no separators, of: "m" iff merchantable; a single density-class
letter with A on [6,30], B on [31,50], C on [51,70], D on [71,100]; the decimal
string of the height; the dominant species code followed by `dom_cover / 10`;
and, exactly when `dom_cover < 100` and a secondary species is present, the
secondary species code followed by `sec_cover / 10`. -/
theorem C1_avi_code (m : Bool) (d h : ℕ) (dom : String) (dom_cover : ℕ)
    (sec : String) (sec_cover : ℕ)
    (hd1 : 6 ≤ d) (hd2 : d ≤ 100) (hh : h ≤ 40)
    (hdc : dom_cover ≤ 100) (hdc10 : dom_cover % 10 = 0)
    (hsc : sec_cover ≤ 100) (hsc10 : sec_cover % 10 = 0) :
    avi_code_of m d h dom dom_cover sec sec_cover =
      (if m then "m" else "") ++ density_letter_spec d ++ toString h
        ++ dom ++ toString (dom_cover / 10)
        ++ (if dom_cover < 100 ∧ sec ≠ "" then sec ++ toString (sec_cover / 10) else "")
      ∧ (density_letter_spec d).length = 1 := by
  constructor
  · rfl
  · unfold density_letter_spec
    split_ifs <;> first | rfl | omega

/-- Witness for C1 at the claim's own example: merchantable, density 70,
height 15, dominant White spruce at 100 %, no secondary, giving "mC15Sw10". -/
theorem C1_witness :
    avi_code_of true 70 15 "Sw" 100 "" 30 = "mC15Sw10" := by
  have h := (C1_avi_code true 70 15 "Sw" 100 "" 30 (by omega) (by omega) (by omega)
    (by omega) (by omega) (by omega) (by omega)).1
  rw [h]; decide

/-! ### Claim C3 -/

/-- C3: with `t_dec`/`t_con` the deciduous/conifer cover sums, the structure
group is "D" when `t_dec ≥ 70`; otherwise, when `t_con ≥ 70`, "C-Sw"/"C-P"/
"C-Sb" for dominant White spruce/Pine/Black spruce and "C-Sx" for any other
conifer dominant; otherwise, when `t_con > 30` (and `t_dec < 70`), "MX-P" for
dominant Pine else "MX-Sx"; otherwise no group. -/
theorem C3_structure_group (dom_sp sec_sp : String) (dom_pct sec_pct : ℕ) :
    (70 ≤ t_dec_of dom_sp dom_pct sec_sp sec_pct →
      get_structure_group dom_sp dom_pct sec_sp sec_pct = some "D")
    ∧ (t_dec_of dom_sp dom_pct sec_sp sec_pct < 70 →
       70 ≤ t_con_of dom_sp dom_pct sec_sp sec_pct →
        (dom_sp = "Sw" → get_structure_group dom_sp dom_pct sec_sp sec_pct = some "C-Sw")
        ∧ (dom_sp = "P" → get_structure_group dom_sp dom_pct sec_sp sec_pct = some "C-P")
        ∧ (dom_sp = "Sb" → get_structure_group dom_sp dom_pct sec_sp sec_pct = some "C-Sb")
        ∧ (dom_sp ∈ conifers → dom_sp ∉ (["Sw", "P", "Sb"] : List String) →
            get_structure_group dom_sp dom_pct sec_sp sec_pct = some "C-Sx"))
    ∧ (t_dec_of dom_sp dom_pct sec_sp sec_pct < 70 →
       t_con_of dom_sp dom_pct sec_sp sec_pct < 70 →
       30 < t_con_of dom_sp dom_pct sec_sp sec_pct →
        (dom_sp = "P" → get_structure_group dom_sp dom_pct sec_sp sec_pct = some "MX-P")
        ∧ (dom_sp ≠ "P" → get_structure_group dom_sp dom_pct sec_sp sec_pct = some "MX-Sx"))
    ∧ (t_dec_of dom_sp dom_pct sec_sp sec_pct < 70 →
       t_con_of dom_sp dom_pct sec_sp sec_pct ≤ 30 →
        get_structure_group dom_sp dom_pct sec_sp sec_pct = none) := by
  unfold get_structure_group t_dec_of t_con_of
  refine ⟨?_, ?_, ?_, ?_⟩
  · intro h1
    rw [if_pos h1]
  · intro h1 h2
    refine ⟨?_, ?_, ?_, ?_⟩ <;> intro hsp
    · subst hsp; rw [if_neg (by omega), if_pos h2, if_pos rfl]
    · subst hsp; rw [if_neg (by omega), if_pos h2, if_neg (by decide), if_pos rfl]
    · subst hsp
      rw [if_neg (by omega), if_pos h2, if_neg (by decide), if_neg (by decide), if_pos rfl]
    · intro hnot
      rw [if_neg (by omega), if_pos h2, if_neg (by simp_all), if_neg (by simp_all),
        if_neg (by simp_all)]
  · intro h1 h2 h3
    constructor <;> intro hsp
    · subst hsp
      rw [if_neg (by omega), if_neg (by omega), if_pos ⟨h3, h1⟩, if_pos rfl]
    · rw [if_neg (by omega), if_neg (by omega), if_pos ⟨h3, h1⟩, if_neg hsp]
  · intro h1 h2
    rw [if_neg (by omega), if_neg (by omega), if_neg (by omega)]

/-- Witness for C3 at concrete inputs: Aspen 70 / Birch 30 gives "D";
Pine 70 / Aspen 30 gives "C-P"; White spruce 40 / Aspen 60 gives "MX-Sx"
(spec scenario values). -/
theorem C3_witness :
    get_structure_group "Aw" 70 "Bw" 30 = some "D"
    ∧ get_structure_group "P" 70 "Aw" 30 = some "C-P"
    ∧ get_structure_group "Sw" 40 "Aw" 60 = some "MX-Sx" := by
  refine ⟨?_, ?_, ?_⟩
  · exact (C3_structure_group "Aw" "Bw" 70 30).1 (by decide)
  · exact ((C3_structure_group "P" "Aw" 70 30).2.1 (by decide) (by decide)).2.1 rfl
  · exact ((C3_structure_group "Sw" "Aw" 40 60).2.2.1 (by decide) (by decide) (by decide)).2
      (by decide)

/-! ### Claim C4 -/

/-- C4: for density d in [6,100] and height h in [0,40], the lookup key is
"{height_bucket} ({density_class_bucket})" with the spec's buckets, and the
key is matched exactly against the table's labels after trimming surrounding
whitespace, no match being "row not found". -/
theorem C4_lookup_key (h d : ℕ) (hd1 : 6 ≤ d) (hd2 : d ≤ 100) (hh : h ≤ 40) :
    lookup_key h d = height_bucket_spec h ++ " (" ++ density_class_bucket_spec d ++ ")"
    ∧ (∀ (t : Table) (key : String),
        (∀ r, find_row t key = some r → py_strip r.label = key)
        ∧ (find_row t key = none ↔ ∀ r ∈ t.rows, ¬py_strip r.label = key)) := by
  constructor
  · unfold lookup_key height_bin height_bucket_spec density_class density_class_bucket_spec
    split_ifs <;> first | rfl | omega
  · intro t key
    constructor
    · intro r hr
      have := List.find?_some hr
      simpa [beq_iff_eq] using this
    · rw [find_row, List.find?_eq_none]
      simp [beq_iff_eq]

/-- Witness for C4 at h = 8, d = 40 (spec example key "5-8 (AB)"), plus the
trimmed-match behavior on a one-row table with a padded label: the matched
row's label trims to the key, and on the empty table no row is found. -/
theorem C4_witness :
    lookup_key 8 40 = "5-8 (AB)"
    ∧ py_strip (⟨" 5-8 (AB) ", [("Total (D)", 7)]⟩ : TableRow).label = "5-8 (AB)"
    ∧ find_row ⟨["Total (D)"], []⟩ "5-8 (AB)" = none := by
  refine ⟨?_, ?_, ?_⟩
  · have h := (C4_lookup_key 8 40 (by omega) (by omega) (by omega)).1
    rw [h]; decide
  · exact ((C4_lookup_key 8 40 (by omega) (by omega) (by omega)).2
      ⟨["Total (D)"], [⟨" 5-8 (AB) ", [("Total (D)", 7)]⟩]⟩ "5-8 (AB)").1
      ⟨" 5-8 (AB) ", [("Total (D)", 7)]⟩ (by rfl)
  · exact ((C4_lookup_key 8 40 (by omega) (by omega) (by omega)).2
      ⟨["Total (D)"], []⟩ "5-8 (AB)").2.mpr (by simp)

/-! ### Claim C5 -/

/-- C5: the consulted column is "Total ({group})" exactly for the seven valid
group labels and "Total (D)" in every other case (including the null group);
and a missing row or missing column makes the looked-up total 0 without any
error (the lookup function is total). -/
theorem C5_column_fallback :
    (∀ g : Option String,
      (∀ s, g = some s → s ∈ valid_groups → total_col_of g = "Total (" ++ s ++ ")")
      ∧ (∀ s, g = some s → s ∉ valid_groups → total_col_of g = "Total (D)")
      ∧ (g = none → total_col_of g = "Total (D)"))
    ∧ (∀ (t : Table) (key col : String),
        find_row t key = none ∨ col ∉ t.columns → lookup_total t key col = 0) := by
  constructor
  · intro g
    refine ⟨?_, ?_, ?_⟩
    · rintro s rfl hs
      simp [total_col_of, hs]
    · rintro s rfl hs
      simp [total_col_of, hs]
    · rintro rfl
      rfl
  · intro t key col hmiss
    rcases hmiss with hrow | hcol
    · simp [lookup_total, hrow]
    · cases hrow : find_row t key <;> simp [lookup_total, hrow, hcol]

/-- Witness for C5: the null group and the unexpected label "X" both select
"Total (D)"; group "MX-P" selects "Total (MX-P)"; and on the empty table any
lookup is 0. -/
theorem C5_witness :
    total_col_of none = "Total (D)"
    ∧ total_col_of (some "X") = "Total (D)"
    ∧ total_col_of (some "MX-P") = "Total (MX-P)"
    ∧ lookup_total ⟨[], []⟩ "5-8 (AB)" "Total (D)" = 0 := by
  refine ⟨?_, ?_, ?_, ?_⟩
  · exact (C5_column_fallback.1 none).2.2 rfl
  · exact (C5_column_fallback.1 (some "X")).2.1 "X" rfl (by decide)
  · exact (C5_column_fallback.1 (some "MX-P")).1 "MX-P" rfl (by decide)
  · exact C5_column_fallback.2 ⟨[], []⟩ "5-8 (AB)" "Total (D)" (Or.inl rfl)

/-! ### Claim C2 -/

/-- C2: for every valid StandInput and every looked-up table total
(`res.total_val`): at dominant cover 100 the conifer per-ha is the lookup
value for a conifer dominant and null otherwise, the deciduous per-ha is the
lookup value for a deciduous dominant and 0 otherwise; below 100 each per-ha
is share/100 × lookup rounded to 1 decimal, conifer null (resp. deciduous 0)
on a zero share; each absolute volume is per-ha × area rounded to 5 decimals
(0 on null), and each load is volume / 30 rounded to 5 decimals. -/
theorem C2_volume_split (m : Bool) (d h : ℕ) (dom : String) (dc : ℕ)
    (sec : String) (sc : ℕ) (area : ℚ) (df : Table) (rg : Region)
    (hd1 : 6 ≤ d) (hd2 : d ≤ 100) (hh : h ≤ 40) (hdc : dc ≤ 100) (hsc : sc ≤ 100) :
    let res := calculate_avi_and_volumes m d h dom dc sec sc area (fun _ => Except.ok df) rg
    (dc = 100 →
      res.c_vol_ha = (if dom ∈ conifers then some res.total_val else none)
      ∧ res.d_vol_ha = some (if dom ∈ deciduous then res.total_val else 0))
    ∧ (dc < 100 →
      res.c_vol_ha = (if 0 < t_con_of dom dc sec sc
          then some (round_to ((t_con_of dom dc sec sc : ℚ) / 100 * res.total_val) 1)
          else none)
      ∧ res.d_vol_ha = some (if 0 < t_dec_of dom dc sec sc
          then round_to ((t_dec_of dom dc sec sc : ℚ) / 100 * res.total_val) 1
          else 0))
    ∧ res.c_vol = (match res.c_vol_ha with
        | some v => round_to (v * area) 5
        | none => 0)
    ∧ res.d_vol = (match res.d_vol_ha with
        | some v => round_to (v * area) 5
        | none => 0)
    ∧ res.c_load = round_to (res.c_vol / 30) 5
    ∧ res.d_load = round_to (res.d_vol / 30) 5 := by
  dsimp only
  simp only [calculate_avi_and_volumes]
  unfold compute_ok t_con_of t_dec_of
  by_cases h100 : dc = 100
  · subst h100
    simp
  · have hlt : dc < 100 := by omega
    simp [h100]

/-- Witness for C2 at the claim's scenario: dominant White spruce at 100 %, a
one-row table; the conifer per-ha equals the looked-up total. -/
theorem C2_witness :
    (calculate_avi_and_volumes true 70 15 "Sw" 100 "" 0 2
        (fun _ => Except.ok ⟨["Height_and_Density", "Total (C-Sw)"],
          [⟨"15 (CD)", [("Total (C-Sw)", 200)]⟩]⟩) Region.Boreal).c_vol_ha =
      some (calculate_avi_and_volumes true 70 15 "Sw" 100 "" 0 2
        (fun _ => Except.ok ⟨["Height_and_Density", "Total (C-Sw)"],
          [⟨"15 (CD)", [("Total (C-Sw)", 200)]⟩]⟩) Region.Boreal).total_val := by
  have h := ((C2_volume_split true 70 15 "Sw" 100 "" 0 2
    ⟨["Height_and_Density", "Total (C-Sw)"], [⟨"15 (CD)", [("Total (C-Sw)", 200)]⟩]⟩
    Region.Boreal (by omega) (by omega) (by omega) (by omega) (by omega)).1 rfl).1
  rw [h]
  simp [conifers]

/-! ### Claim C6 -/

/-- C6: the engine only ever depends on the provider for failure — when the
provider yields a table, the result is exactly the total success-path
computation (no failure on any valid domain values); when the provider fails
for the region, the engine does not crash but produces the zero-filled result:
volumes and loads 0, per-hectare values null, no structure group, total 0. -/
theorem C6_provider_failure (m : Bool) (d h : ℕ) (dom : String) (dc : ℕ)
    (sec : String) (sc : ℕ) (area : ℚ) (provider : TableProvider) (rg : Region) :
    (∀ msg, provider rg = Except.error msg →
      (calculate_avi_and_volumes m d h dom dc sec sc area provider rg).c_vol = 0
      ∧ (calculate_avi_and_volumes m d h dom dc sec sc area provider rg).d_vol = 0
      ∧ (calculate_avi_and_volumes m d h dom dc sec sc area provider rg).c_load = 0
      ∧ (calculate_avi_and_volumes m d h dom dc sec sc area provider rg).d_load = 0
      ∧ (calculate_avi_and_volumes m d h dom dc sec sc area provider rg).c_vol_ha = none
      ∧ (calculate_avi_and_volumes m d h dom dc sec sc area provider rg).d_vol_ha = none
      ∧ (calculate_avi_and_volumes m d h dom dc sec sc area provider rg).group = none
      ∧ (calculate_avi_and_volumes m d h dom dc sec sc area provider rg).total_val = 0)
    ∧ (∀ df, provider rg = Except.ok df →
        calculate_avi_and_volumes m d h dom dc sec sc area provider rg =
          compute_ok m d h dom dc sec sc area df) := by
  constructor
  · intro msg hp
    simp [calculate_avi_and_volumes, hp, zero_result]
  · intro df hp
    simp [calculate_avi_and_volumes, hp]

/-- Witness for C6 with a provider that always fails: the computation still
returns, with zero volumes. -/
theorem C6_witness :
    (calculate_avi_and_volumes true 70 15 "Sw" 100 "" 0 2
        (fun _ => Except.error "missing BOREAL_TDA.xlsx") Region.Boreal).c_vol = 0
    ∧ (calculate_avi_and_volumes true 70 15 "Sw" 100 "" 0 2
        (fun _ => Except.error "missing BOREAL_TDA.xlsx") Region.Boreal).group = none := by
  have h := (C6_provider_failure true 70 15 "Sw" 100 "" 0 2
    (fun _ => Except.error "missing BOREAL_TDA.xlsx") Region.Boreal).1
    "missing BOREAL_TDA.xlsx" rfl
  exact ⟨h.1, h.2.2.2.2.2.2.1⟩

/-! ### Claim C7 -/

/-- Counterexample to C7 as stated: a non-empty results log whose sole entry
has dominant cover 0 and no secondary (a valid StandInput: the dominant-cover
slider starts at 0).  Then `raw_con = raw_dec = 0`, the division guard makes
both percentages 0, and they sum to 0, not 100. -/
theorem C7_counterexample :
    ([(⟨0, 0, 0, 0, "Sw", 0, "", 0⟩ : Entry)] ≠ ([] : List Entry))
    ∧ (finish_totals [(⟨0, 0, 0, 0, "Sw", 0, "", 0⟩ : Entry)]).pct_con
        + (finish_totals [(⟨0, 0, 0, 0, "Sw", 0, "", 0⟩ : Entry)]).pct_dec ≠ 100 := by
  constructor
  · simp
  · have hc : raw_con [(⟨0, 0, 0, 0, "Sw", 0, "", 0⟩ : Entry)] = 0 := by decide
    have hd : raw_dec [(⟨0, 0, 0, 0, "Sw", 0, "", 0⟩ : Entry)] = 0 := by decide
    simp [finish_totals, hc, hd]

/-- C7 amended: for every results log whose cover-weighted denominator
`raw_con + raw_dec` is positive (in particular any non-empty log with some
nonzero cover), `pct_con = round(raw_con/(raw_con+raw_dec)*100)` and
`pct_con + pct_dec = 100` (both percentages are rounded half-to-even, and on
the tie the two fractional parts round to even integers summing to 100). -/
theorem C7_pct_sum (log : List Entry) (hpos : 0 < raw_con log + raw_dec log) :
    (finish_totals log).pct_con
      = round_to ((raw_con log : ℚ) / ((raw_con log + raw_dec log : ℕ) : ℚ) * 100) 0
    ∧ (finish_totals log).pct_con + (finish_totals log).pct_dec = 100 := by
  constructor
  · simp [finish_totals, hpos]
  · have hcast : ((raw_con log + raw_dec log : ℕ) : ℚ)
        = (raw_con log : ℚ) + (raw_dec log : ℚ) := by push_cast; ring
    simp only [finish_totals, if_pos hpos]
    rw [round_to_zero, round_to_zero]
    have hy : (raw_dec log : ℚ) / ((raw_con log + raw_dec log : ℕ) : ℚ) * 100
        = 100 - (raw_con log : ℚ) / ((raw_con log + raw_dec log : ℕ) : ℚ) * 100 := by
      rw [hcast]
      have hne : (raw_con log : ℚ) + (raw_dec log : ℚ) ≠ 0 := by
        have hgt : (0 : ℚ) < (raw_con log : ℚ) + (raw_dec log : ℚ) := by exact_mod_cast hpos
        exact hgt.ne'
      field_simp
      ring
    rw [hy, ← Int.cast_add, rnd_half_even_compl]
    norm_num

/-- Witness for C7 (amended) on a log with conifer 70 / deciduous 30 cover. -/
theorem C7_witness :
    0 < raw_con [(⟨0, 0, 0, 0, "Sw", 70, "Aw", 30⟩ : Entry)]
        + raw_dec [(⟨0, 0, 0, 0, "Sw", 70, "Aw", 30⟩ : Entry)]
    ∧ (finish_totals [(⟨0, 0, 0, 0, "Sw", 70, "Aw", 30⟩ : Entry)]).pct_con
        + (finish_totals [(⟨0, 0, 0, 0, "Sw", 70, "Aw", 30⟩ : Entry)]).pct_dec = 100 := by
  refine ⟨by decide, ?_⟩
  exact (C7_pct_sum [(⟨0, 0, 0, 0, "Sw", 70, "Aw", 30⟩ : Entry)] (by decide)).2

/-! ### Claim C8 -/

/-- C8: whenever `raw_con > 0` the conifer sub-split satisfies
`spruce + pine + other = 100`, with `other` forced to `100 - spruce - pine`
(rounding an integer is the identity) rather than independently rounded; all
three are 0 when `raw_con = 0`; symmetrically `other_dec = 100 - aspen` when
`raw_dec > 0` and both deciduous percentages are 0 when `raw_dec = 0`. -/
theorem C8_subsplit_sum (log : List Entry) :
    (0 < raw_con log →
      other_con_pct log = 100 - spruce_pct log - pine_pct log
      ∧ spruce_pct log + pine_pct log + other_con_pct log = 100)
    ∧ (raw_con log = 0 →
      spruce_pct log = 0 ∧ pine_pct log = 0 ∧ other_con_pct log = 0)
    ∧ (0 < raw_dec log → other_dec_pct log = 100 - aspen_pct log)
    ∧ (raw_dec log = 0 → aspen_pct log = 0 ∧ other_dec_pct log = 0) := by
  refine ⟨?_, ?_, ?_, ?_⟩
  · intro hpos
    have h1 : other_con_pct log = 100 - spruce_pct log - pine_pct log := by
      rw [other_con_pct, if_pos hpos]
      have hcast : (100 : ℚ) - (spruce_pct log : ℚ) - (pine_pct log : ℚ)
          = ((100 - spruce_pct log - pine_pct log : ℤ) : ℚ) := by push_cast; ring
      rw [hcast, rnd_half_even_intCast]
    exact ⟨h1, by omega⟩
  · intro h0
    simp [spruce_pct, pine_pct, other_con_pct, h0]
  · intro hpos
    rw [other_dec_pct, if_pos hpos]
    have hcast : (100 : ℚ) - (aspen_pct log : ℚ) = ((100 - aspen_pct log : ℤ) : ℚ) := by
      push_cast; ring
    rw [hcast, rnd_half_even_intCast]
  · intro h0
    simp [aspen_pct, other_dec_pct, h0]

/-- Witness for C8 on a log with spruce 60 / pine 40 cover. -/
theorem C8_witness :
    0 < raw_con [(⟨0, 0, 0, 0, "Sw", 60, "P", 40⟩ : Entry)]
    ∧ spruce_pct [(⟨0, 0, 0, 0, "Sw", 60, "P", 40⟩ : Entry)]
        + pine_pct [(⟨0, 0, 0, 0, "Sw", 60, "P", 40⟩ : Entry)]
        + other_con_pct [(⟨0, 0, 0, 0, "Sw", 60, "P", 40⟩ : Entry)] = 100
    ∧ aspen_pct [(⟨0, 0, 0, 0, "Sw", 60, "P", 40⟩ : Entry)] = 0 := by
  refine ⟨by decide, ?_, ?_⟩
  · exact ((C8_subsplit_sum [(⟨0, 0, 0, 0, "Sw", 60, "P", 40⟩ : Entry)]).1 (by decide)).2
  · exact ((C8_subsplit_sum [(⟨0, 0, 0, 0, "Sw", 60, "P", 40⟩ : Entry)]).2.2.2 (by decide)).1

/-! ### Claim C9 -/

/-- C9: aggregation never fails — the empty results log yields all-zero totals
with both percentages 0, and more generally any log whose cover-weighted
denominator `raw_con + raw_dec` is 0 gets percentages 0 rather than a
division error (`finish_totals` is a total function). -/
theorem C9_empty_aggregate :
    finish_totals [] = ⟨0, 0, 0, 0, 0, 0⟩
    ∧ ∀ log : List Entry, raw_con log + raw_dec log = 0 →
        (finish_totals log).pct_con = 0 ∧ (finish_totals log).pct_dec = 0 := by
  constructor
  · rfl
  · intro log h0
    have hneg : ¬0 < raw_con log + raw_dec log := by omega
    simp [finish_totals, hneg]

/-- Witness for C9 at a log with nonzero volumes but all-zero covers. -/
theorem C9_witness :
    raw_con [(⟨5, 1, 2, 1, "Sw", 0, "", 0⟩ : Entry)]
        + raw_dec [(⟨5, 1, 2, 1, "Sw", 0, "", 0⟩ : Entry)] = 0
    ∧ (finish_totals [(⟨5, 1, 2, 1, "Sw", 0, "", 0⟩ : Entry)]).pct_con = 0 := by
  refine ⟨by decide, ?_⟩
  exact (C9_empty_aggregate.2 [(⟨5, 1, 2, 1, "Sw", 0, "", 0⟩ : Entry)] (by decide)).1

/-! ### Claim C10 -/

/-- Counterexample to C10 as stated: a log whose conifer volume sum is 0.01.
The generated report does not hand on the exact sum — `fill_template` first
re-rounds with `math.ceil(x*10)/10`, rendering 0.1 instead of 0.01. -/
theorem C10_counterexample :
    (report_totals [(⟨1/100, 0, 0, 0, "Sw", 100, "", 0⟩ : Entry)]).1
      ≠ (finish_totals [(⟨1/100, 0, 0, 0, "Sw", 100, "", 0⟩ : Entry)]).total_c_vol := by
  show ceil_1dp (total_c_vol_sum [(⟨1/100, 0, 0, 0, "Sw", 100, "", 0⟩ : Entry)])
      ≠ total_c_vol_sum [(⟨1/100, 0, 0, 0, "Sw", 100, "", 0⟩ : Entry)]
  have hsum : total_c_vol_sum [(⟨1/100, 0, 0, 0, "Sw", 100, "", 0⟩ : Entry)] = 1/100 := by
    simp [total_c_vol_sum]
  rw [hsum, ceil_1dp]
  have hceil : ⌈(1 : ℚ)/100 * 10⌉ = 1 := by
    rw [show (1 : ℚ)/100 * 10 = 1/10 by norm_num, Int.ceil_eq_iff]
    norm_num
  rw [hceil]
  norm_num

/-- C10 amended: the four volume/load totals rendered into the report are the
aggregate sums of the per-entry values (which the engine stored rounded to 5
decimals), but with one further rounding applied by the report side: each
total is rounded up to one decimal place (`math.ceil(x*10)/10`) before being
formatted. -/
theorem C10_report_rounding (log : List Entry) :
    report_totals log =
      (ceil_1dp (finish_totals log).total_c_vol,
       ceil_1dp (finish_totals log).total_c_load,
       ceil_1dp (finish_totals log).total_d_vol,
       ceil_1dp (finish_totals log).total_d_load) := rfl

end Timber
